import Mathlib

/-!
Shallow embedding of the Smart-Home-IOT backend (`backend_main.py`,
`src/database.py`, thresholds from `config.py`).

Modelling conventions:
* Python `float` sensor values are embedded as `ℚ`; an absent (`None`)
  value is `Option.none`.  A Python comparison `None > x` raises a
  `TypeError`; this is embedded as an `Except Unit` error result carrying
  the state as mutated so far (Python mutates `self` in place, so
  mutations made before the raise survive).
* The SQLite tables are embedded as append-only lists inside the state.
  `DatabaseManager.save_actuator_event` / `save_alert` /
  `save_sensor_reading` catch `sqlite3.Error`, log, and return `None`;
  this is embedded by a `db_ok` flag: when it is `false` every save
  appends nothing and returns `none`, and no exception propagates.
* `publish_mqtt` publishes only when `mqtt_connected`; published
  messages are recorded as `(topic, payload)` pairs.  Numeric payload
  values and the human-readable f-string messages are summarised by
  their distinguishing fields (state / source / reason / alert type).
* `time.time()` is passed in explicitly as `now : ℚ`.
* `publish_to_thingspeak` performs an outbound HTTP call; the call
  occurrence is recorded in `thingspeak_calls`.  The configured
  `THINGSPEAK_API_KEY` is not the placeholder `"YOUR_WRITE_API_KEY"`,
  so the early-return guard in the source is never taken.
* Python `str.lower` is embedded as `pyLower` (ASCII case folding).
* Python `json.loads` is external library code; `on_mqtt_message` takes
  it as an oracle `parse` returning the parsed object's string fields
  (`none` models a parse failure).  Python substring test `a in b` on
  strings is embedded via `List.isInfixOf`.
-/

namespace SmartHome

/-- Thresholds from `config.THRESHOLDS`. -/
def temperature_high : ℚ := 28

/-- `config.THRESHOLDS["temperature_critical"]`. -/
def temperature_critical : ℚ := 35

/-- `config.THRESHOLDS["humidity_high"]`. -/
def humidity_high : ℚ := 70

/-- `config.THRESHOLDS["light_threshold"]`. -/
def light_threshold : ℚ := 300

/-- The `self.sensor_data` dict of `SmartHomeBackend`. -/
structure SensorData where
  temperature : Option ℚ
  humidity : Option ℚ
  light_level : Option ℚ
  timestamp : Option ℚ
deriving DecidableEq, Repr

/-- A row of the `actuator_events` table (id/timestamp columns omitted;
rows are identified by list position). -/
structure ActuatorEvent where
  actuator_type : String
  action : String
  value : Option String
  auto_triggered : Bool
deriving DecidableEq, Repr

/-- A row of the `alerts` table (id/timestamp/message columns omitted;
the f-string `message` is determined by `alert_type` and `value`). -/
structure Alert where
  alert_type : String
  value : Option ℚ
deriving DecidableEq, Repr

/-- Summary of a JSON payload handed to `publish_mqtt`. -/
inductive PubPayload where
  | sensorValue (value : Option ℚ)
  | actuatorState (state source : String) (reason : Option String)
  | alertMsg (alertType : String)
deriving DecidableEq, Repr

/-- A row of the `sensor_readings` table. -/
structure SensorReading where
  temperature : Option ℚ
  humidity : Option ℚ
  light_level : Option ℚ
deriving DecidableEq, Repr

/-- The mutable state of a `SmartHomeBackend` instance together with the
database tables and the record of outbound messages. -/
structure BackendState where
  fan : Bool
  light : Bool
  sensor_data : SensorData
  sensor_readings : List SensorReading
  actuator_events : List ActuatorEvent
  alerts : List Alert
  published : List (String × PubPayload)
  mqtt_connected : Bool
  db_ok : Bool
  last_thingspeak : ℚ
  thingspeak_calls : List ℚ
deriving DecidableEq, Repr

/-- The state right after `SmartHomeBackend.__init__` (empty database,
`fan = light = False`, `last_thingspeak = 0`), with the MQTT connection
flag and database health as parameters. -/
def initState (mqtt_connected db_ok : Bool) : BackendState where
  fan := false
  light := false
  sensor_data := { temperature := none, humidity := none,
                   light_level := none, timestamp := none }
  sensor_readings := []
  actuator_events := []
  alerts := []
  published := []
  mqtt_connected := mqtt_connected
  db_ok := db_ok
  last_thingspeak := 0
  thingspeak_calls := []

/-- `SmartHomeBackend.publish_mqtt`: returns without publishing when the
client is not connected, otherwise publishes with QoS 1. -/
def publish_mqtt (st : BackendState) (topic : String) (p : PubPayload) :
    BackendState :=
  if st.mqtt_connected then
    { st with published := st.published ++ [(topic, p)] }
  else st

/-- `DatabaseManager.save_actuator_event`: inserts a row and returns its
rowid; on `sqlite3.Error` it logs, inserts nothing and returns `None`. -/
def save_actuator_event (st : BackendState) (actuator_type action : String)
    (value : Option String) (auto_triggered : Bool) :
    BackendState × Option ℕ :=
  if st.db_ok then
    ({ st with actuator_events :=
         st.actuator_events ++
           [⟨actuator_type, action, value, auto_triggered⟩] },
     some st.actuator_events.length)
  else (st, none)

/-- `DatabaseManager.save_alert`: inserts a row and returns its rowid; on
`sqlite3.Error` it logs, inserts nothing and returns `None`. -/
def save_alert (st : BackendState) (alert_type : String) (value : Option ℚ) :
    BackendState × Option ℕ :=
  if st.db_ok then
    ({ st with alerts := st.alerts ++ [⟨alert_type, value⟩] },
     some st.alerts.length)
  else (st, none)

/-- `DatabaseManager.save_sensor_reading`: inserts a row and returns its
rowid; on `sqlite3.Error` it logs, inserts nothing and returns `None`. -/
def save_sensor_reading (st : BackendState) (t h l : Option ℚ) :
    BackendState × Option ℕ :=
  if st.db_ok then
    ({ st with sensor_readings := st.sensor_readings ++ [⟨t, h, l⟩] },
     some st.sensor_readings.length)
  else (st, none)

/-- Python `str.lower` (ASCII case folding), applied characterwise. -/
def pyLower (s : String) : String := String.mk (s.data.map Char.toLower)

/-- `SmartHomeBackend.execute_command(actuator, action, source)`
(`backend_main.py` lines 289-311): lowercases the action, and for the
`"fan"` / `"light"` actuators sets the state to `action == "on"`, saves
an event with `auto_triggered=False` and publishes the new state; any
other actuator falls through both branches untouched. -/
def execute_command (st : BackendState) (actuator action source : String) :
    BackendState :=
  let a := pyLower action
  if actuator == "fan" then
    let st1 := { st with fan := a == "on" }
    let st2 := (save_actuator_event st1 "fan" a none false).1
    publish_mqtt st2 "smarthome/actuators/fan"
      (PubPayload.actuatorState a source none)
  else if actuator == "light" then
    let st1 := { st with light := a == "on" }
    let st2 := (save_actuator_event st1 "light" a none false).1
    publish_mqtt st2 "smarthome/actuators/light"
      (PubPayload.actuatorState a source none)
  else
    st

/-- The command dict returned by `apply_auto_control` (keys `"fan"` and
`"light"`, present only when set). -/
structure Commands where
  fan : Option String
  light : Option String
deriving DecidableEq, Repr

/-- `SmartHomeBackend.apply_auto_control(temperature, humidity, light)`
(`backend_main.py` lines 313-384).  Checks run in source order: fan by
temperature, light by light level, humidity alert.  A comparison whose
left operand is `None` raises `TypeError`; the error result carries the
state as mutated before the raise. -/
def apply_auto_control (st : BackendState)
    (temperature humidity light : Option ℚ) :
    BackendState × Except Unit Commands :=
  match temperature with
  | none => (st, Except.error ())
  | some t =>
    let fanStep : BackendState × Option String :=
      if t > temperature_high then
        if !st.fan then
          let st1 := { st with fan := true }
          let st2 := (save_actuator_event st1 "fan" "on" none true).1
          let st3 := publish_mqtt st2 "smarthome/actuators/fan"
            (PubPayload.actuatorState "on" "auto" (some "high_temp"))
          let st4 :=
            if t > temperature_critical then
              let stA := (save_alert st3 "temperature_critical" (some t)).1
              publish_mqtt stA "smarthome/alerts"
                (PubPayload.alertMsg "critical")
            else st3
          (st4, some "on")
        else (st, none)
      else
        if st.fan then
          let st1 := { st with fan := false }
          let st2 := (save_actuator_event st1 "fan" "off" none true).1
          let st3 := publish_mqtt st2 "smarthome/actuators/fan"
            (PubPayload.actuatorState "off" "auto" none)
          (st3, some "off")
        else (st, none)
    match light with
    | none => (fanStep.1, Except.error ())
    | some l =>
      let lightStep : BackendState × Option String :=
        if l < light_threshold then
          if !fanStep.1.light then
            let st1 := { fanStep.1 with light := true }
            let st2 := publish_mqtt st1 "smarthome/actuators/light"
              (PubPayload.actuatorState "on" "auto" none)
            (st2, some "on")
          else (fanStep.1, none)
        else
          if fanStep.1.light then
            let st1 := { fanStep.1 with light := false }
            let st2 := publish_mqtt st1 "smarthome/actuators/light"
              (PubPayload.actuatorState "off" "auto" none)
            (st2, some "off")
          else (fanStep.1, none)
      match humidity with
      | none => (lightStep.1, Except.error ())
      | some h =>
        let stH :=
          if h > humidity_high then
            let st1 := (save_alert lightStep.1 "humidity_high" (some h)).1
            publish_mqtt st1 "smarthome/alerts"
              (PubPayload.alertMsg "warning")
          else lightStep.1
        (stH, Except.ok { fan := fanStep.2, light := lightStep.2 })

/-- `SmartHomeBackend.publish_to_thingspeak`: the configured API key is
not the placeholder, so the call proceeds; the outbound request is
recorded.  The call site records the time of the attempt. -/
def publish_to_thingspeak (st : BackendState) (now : ℚ) : BackendState :=
  { st with thingspeak_calls := st.thingspeak_calls ++ [now] }

/-- `SmartHomeBackend.update_sensor_data(temperature, humidity, light)`
(`backend_main.py` lines 259-287): overwrites the snapshot, saves the
reading, publishes the three sensor topics when connected, and calls
ThingSpeak when at least 20 seconds elapsed since `last_thingspeak`,
recording the fire time only in that case. -/
def update_sensor_data (st : BackendState)
    (temperature humidity light : Option ℚ) (now : ℚ) : BackendState :=
  let st1 := { st with sensor_data :=
    { temperature := temperature, humidity := humidity,
      light_level := light, timestamp := some now } }
  let st2 := (save_sensor_reading st1 temperature humidity light).1
  let st3 :=
    if st2.mqtt_connected then
      let a := publish_mqtt st2 "smarthome/sensors/temperature"
        (PubPayload.sensorValue temperature)
      let b := publish_mqtt a "smarthome/sensors/humidity"
        (PubPayload.sensorValue humidity)
      publish_mqtt b "smarthome/sensors/light"
        (PubPayload.sensorValue light)
    else st2
  if now - st3.last_thingspeak ≥ 20 then
    let st4 := publish_to_thingspeak st3 now
    { st4 with last_thingspeak := now }
  else st3

/-- The `POST /sensor` handler `receive_sensor_data` (`backend_main.py`
lines 50-77): updates sensor data, runs auto control, and returns HTTP
200 on success; an exception is caught and turned into HTTP 500. -/
def receive_sensor_data (st : BackendState)
    (temperature humidity light : Option ℚ) (now : ℚ) :
    BackendState × ℕ :=
  let st1 := update_sensor_data st temperature humidity light now
  match apply_auto_control st1 temperature humidity light with
  | (st2, Except.ok _) => (st2, 200)
  | (st2, Except.error _) => (st2, 500)

/-- Python substring test `needle in haystack` on strings. -/
def substrIn (needle haystack : String) : Bool :=
  decide (needle.toList <:+: haystack.toList)

/-- Python `dict.get(key, default)` on a string-valued JSON object. -/
def dictGet (d : List (String × String)) (key dflt : String) : String :=
  match d.find? (fun p => p.1 == key) with
  | some p => p.2
  | none => dflt

/-- `SmartHomeBackend.on_mqtt_message` (`backend_main.py` lines
201-230).  `parse` is the `json.loads` oracle: `some fields` is a
successfully parsed object with string fields, `none` a parse failure,
in which case the command dict becomes `{"action": payload}`.  The
actuator comes from a topic substring match (`"fan"` first, then
`"light"`, otherwise return); the action from the `"action"` field,
falling back to `"state"`, falling back to `""`. -/
def on_mqtt_message (parse : String → Option (List (String × String)))
    (st : BackendState) (topic payload : String) : BackendState :=
  let command : List (String × String) :=
    match parse payload with
    | some fields => fields
    | none => [("action", payload)]
  if substrIn "fan" topic then
    execute_command st "fan"
      (dictGet command "action" (dictGet command "state" "")) "MQTT"
  else if substrIn "light" topic then
    execute_command st "light"
      (dictGet command "action" (dictGet command "state" "")) "MQTT"
  else
    st

/-- Number of persisted actuator events for a given actuator type. -/
def countEvents (evs : List ActuatorEvent) (a : String) : ℕ :=
  (evs.filter (fun e => e.actuator_type == a)).length

/-- Number of persisted alerts of a given type. -/
def countAlerts (als : List Alert) (t : String) : ℕ :=
  (als.filter (fun al => al.alert_type == t)).length

/-- Number of persisted auto-triggered actuator events for a given
actuator type. -/
def countAutoEvents (evs : List ActuatorEvent) (a : String) : ℕ :=
  (evs.filter (fun e => e.actuator_type == a && e.auto_triggered)).length

/-- Folding `apply_auto_control` over a list of complete readings
`(temperature, humidity, light)`, keeping the state. -/
def runReadings (st : BackendState) (rs : List (ℚ × ℚ × ℚ)) :
    BackendState :=
  rs.foldl
    (fun s r => (apply_auto_control s (some r.1) (some r.2.1) (some r.2.2)).1)
    st

/-- Folding `update_sensor_data` over a list of call times with a fixed
reading, as successive `POST /sensor` arrivals. -/
def runUpdates (st : BackendState)
    (temperature humidity light : Option ℚ) (times : List ℚ) :
    BackendState :=
  times.foldl (fun s now => update_sensor_data s temperature humidity light now) st

/-! ## Helper lemmas -/

/-- `publish_mqtt` as a single record update. -/
@[simp] lemma publish_mqtt_eq (st : BackendState) (topic : String) (p : PubPayload) :
    publish_mqtt st topic p =
      { st with published :=
          st.published ++ (if st.mqtt_connected then [(topic, p)] else []) } := by
  cases st; unfold publish_mqtt; split <;> simp_all

/-- `save_actuator_event` as a single record update. -/
@[simp] lemma save_actuator_event_eq (st : BackendState) (a act : String)
    (v : Option String) (auto : Bool) :
    save_actuator_event st a act v auto =
      ({ st with actuator_events :=
           st.actuator_events ++ (if st.db_ok then [⟨a, act, v, auto⟩] else []) },
       if st.db_ok then some st.actuator_events.length else none) := by
  cases st; unfold save_actuator_event; split <;> simp_all

/-- `save_alert` as a single record update. -/
@[simp] lemma save_alert_eq (st : BackendState) (a : String) (v : Option ℚ) :
    save_alert st a v =
      ({ st with alerts := st.alerts ++ (if st.db_ok then [⟨a, v⟩] else []) },
       if st.db_ok then some st.alerts.length else none) := by
  cases st; unfold save_alert; split <;> simp_all

/-- `save_sensor_reading` as a single record update. -/
@[simp] lemma save_sensor_reading_eq (st : BackendState) (t h l : Option ℚ) :
    save_sensor_reading st t h l =
      ({ st with sensor_readings :=
           st.sensor_readings ++ (if st.db_ok then [⟨t, h, l⟩] else []) },
       if st.db_ok then some st.sensor_readings.length else none) := by
  cases st; unfold save_sensor_reading; split <;> simp_all

@[simp] lemma countEvents_append (xs ys : List ActuatorEvent) (a : String) :
    countEvents (xs ++ ys) a = countEvents xs a + countEvents ys a := by
  simp [countEvents, List.filter_append]

@[simp] lemma countAlerts_append (xs ys : List Alert) (t : String) :
    countAlerts (xs ++ ys) t = countAlerts xs t + countAlerts ys t := by
  simp [countAlerts, List.filter_append]

@[simp] lemma countAutoEvents_append (xs ys : List ActuatorEvent) (a : String) :
    countAutoEvents (xs ++ ys) a = countAutoEvents xs a + countAutoEvents ys a := by
  simp [countAutoEvents, List.filter_append]

/-- `apply_auto_control` never touches the database-health flag. -/
lemma auto_db_ok (st : BackendState) (t h l : Option ℚ) :
    (apply_auto_control st t h l).1.db_ok = st.db_ok := by
  rcases t with _ | tv <;> rcases l with _ | lv <;> rcases h with _ | hv <;>
    simp only [apply_auto_control] <;>
    first
      | rfl
      | (split_ifs <;> simp)

/-- One evaluation with a qualifying humidity records exactly one more
`humidity_high` alert, whatever the actuator states do. -/
lemma auto_humidity_step (st : BackendState) (tv hv lv : ℚ)
    (hdb : st.db_ok = true) (hq : hv > humidity_high) :
    countAlerts ((apply_auto_control st (some tv) (some hv) (some lv)).1.alerts)
        "humidity_high"
      = countAlerts st.alerts "humidity_high" + 1 := by
  simp only [apply_auto_control]
  by_cases h1 : tv > temperature_high <;> by_cases hf : st.fan = true <;>
    by_cases h2 : tv > temperature_critical <;>
    by_cases h3 : lv < light_threshold <;> by_cases hl : st.light = true <;>
    simp [h1, hf, h2, h3, hl, hq, hdb, countAlerts]

/-! ## Claim C1 -/

/-- Claim C1, counterexample: `execute_command("fan","on")` called twice
from a fresh connected backend persists two `ActuatorEvent` rows and
performs two publishes, not one of each — the second call, with the fan
already ON, is not a no-op. -/
theorem execute_fan_on_twice_two_events :
    (execute_command (execute_command (initState true true) "fan" "on" "HTTP")
        "fan" "on" "HTTP").actuator_events.length = 2
    ∧ (execute_command (execute_command (initState true true) "fan" "on" "HTTP")
        "fan" "on" "HTTP").published.length = 2 := by
  decide

/-- Claim C1 as amended: `execute_command` is not idempotent — every call
with actuator `"fan"` or `"light"` appends exactly one `ActuatorEvent`
(when the database write succeeds) and one publish (when MQTT is
connected), regardless of whether the actuator already is in the state
denoted by the normalized action. -/
theorem execute_always_persists_and_publishes (st : BackendState)
    (action source : String) (hdb : st.db_ok = true)
    (hmq : st.mqtt_connected = true) :
    (execute_command st "fan" action source).actuator_events.length
        = st.actuator_events.length + 1
    ∧ (execute_command st "fan" action source).published.length
        = st.published.length + 1
    ∧ (execute_command st "light" action source).actuator_events.length
        = st.actuator_events.length + 1
    ∧ (execute_command st "light" action source).published.length
        = st.published.length + 1 := by
  refine ⟨?_, ?_, ?_, ?_⟩ <;> simp [execute_command, hdb, hmq]

/-- Witness for `execute_always_persists_and_publishes` at a fresh
connected backend. -/
theorem execute_always_persists_and_publishes_witness :
    (execute_command (initState true true) "fan" "on" "HTTP").actuator_events.length
        = (initState true true).actuator_events.length + 1
    ∧ (execute_command (initState true true) "fan" "on" "HTTP").published.length
        = (initState true true).published.length + 1
    ∧ (execute_command (initState true true) "light" "on" "HTTP").actuator_events.length
        = (initState true true).actuator_events.length + 1
    ∧ (execute_command (initState true true) "light" "on" "HTTP").published.length
        = (initState true true).published.length + 1 :=
  execute_always_persists_and_publishes (initState true true) "on" "HTTP" rfl rfl

/-! ## Claim C2 -/

/-- Claim C2, counterexample: an auto-triggered light OFF→ON transition
(light level 100 < 300 with the light OFF) changes the stored light
state but writes no `ActuatorEvent` at all. -/
theorem auto_light_transition_writes_no_event :
    ((apply_auto_control (initState true true) (some 25) (some 50) (some 100)).1).light = true
    ∧ ((apply_auto_control (initState true true) (some 25) (some 50) (some 100)).1).actuator_events
        = [] := by
  decide

/-- Claim C2 as amended: on every successful evaluation a fan transition
writes exactly one auto-triggered fan `ActuatorEvent` (when the database
write succeeds), but light transitions never write any light event —
the stored light state still switches to `lightLevel < threshold`. -/
theorem auto_control_fan_events_only (st : BackendState) (tv hv lv : ℚ)
    (hdb : st.db_ok = true) :
    countAutoEvents
        ((apply_auto_control st (some tv) (some hv) (some lv)).1.actuator_events) "fan"
      = countAutoEvents st.actuator_events "fan"
          + (if st.fan = decide (tv > temperature_high) then 0 else 1)
    ∧ countEvents
        ((apply_auto_control st (some tv) (some hv) (some lv)).1.actuator_events) "light"
      = countEvents st.actuator_events "light"
    ∧ (apply_auto_control st (some tv) (some hv) (some lv)).1.fan
        = decide (tv > temperature_high)
    ∧ (apply_auto_control st (some tv) (some hv) (some lv)).1.light
        = decide (lv < light_threshold) := by
  simp only [apply_auto_control]
  by_cases h1 : tv > temperature_high <;> by_cases hf : st.fan = true <;>
    by_cases h2 : tv > temperature_critical <;>
    by_cases h3 : lv < light_threshold <;> by_cases hl : st.light = true <;>
    by_cases h4 : hv > humidity_high <;>
    simp [h1, hf, h2, h3, hl, h4, hdb, countAutoEvents, countEvents]

/-- Witness for `auto_control_fan_events_only`: a fan OFF→ON and a light
no-op at temperature 30, humidity 50, light 400. -/
theorem auto_control_fan_events_only_witness :
    countAutoEvents
        ((apply_auto_control (initState false true) (some 30) (some 50) (some 400)).1.actuator_events)
        "fan"
      = countAutoEvents (initState false true).actuator_events "fan"
          + (if (initState false true).fan = decide ((30:ℚ) > temperature_high) then 0 else 1)
    ∧ countEvents
        ((apply_auto_control (initState false true) (some 30) (some 50) (some 400)).1.actuator_events)
        "light"
      = countEvents (initState false true).actuator_events "light"
    ∧ (apply_auto_control (initState false true) (some 30) (some 50) (some 400)).1.fan
        = decide ((30:ℚ) > temperature_high)
    ∧ (apply_auto_control (initState false true) (some 30) (some 50) (some 400)).1.light
        = decide ((400:ℚ) < light_threshold) :=
  auto_control_fan_events_only (initState false true) 30 50 400 rfl

/-! ## Claim C3 -/

/-- Claim C3, counterexample: with a failing database
(`save_actuator_event` raises `sqlite3.Error` internally, caught and
turned into a `None` return), `execute_command("fan","on")` still leaves
the in-memory fan state at its NEW value `true` — no rollback — while no
event row was written, and the call returns normally, surfacing nothing
to the caller. -/
theorem failed_write_no_rollback :
    (execute_command (initState false false) "fan" "on" "HTTP").fan = true
    ∧ (execute_command (initState false false) "fan" "on" "HTTP").actuator_events = [] := by
  decide

/-- Claim C3 as amended: the state mutation precedes the event write, a
failed write is swallowed (`save_actuator_event` returns `None`, which
`execute_command` ignores), the state keeps the new value and the caller
sees a normal return. -/
theorem failed_event_write_state_kept (st : BackendState) (action source : String)
    (hdb : st.db_ok = false) :
    (execute_command st "fan" action source).fan = (pyLower action == "on")
    ∧ (execute_command st "fan" action source).actuator_events = st.actuator_events
    ∧ (execute_command st "light" action source).light = (pyLower action == "on")
    ∧ (execute_command st "light" action source).actuator_events = st.actuator_events := by
  refine ⟨?_, ?_, ?_, ?_⟩ <;> simp [execute_command, hdb]

/-- Witness for `failed_event_write_state_kept` on a failing database. -/
theorem failed_event_write_state_kept_witness :
    (execute_command (initState true false) "fan" "on" "HTTP").fan = (pyLower "on" == "on")
    ∧ (execute_command (initState true false) "fan" "on" "HTTP").actuator_events
        = (initState true false).actuator_events
    ∧ (execute_command (initState true false) "light" "on" "HTTP").light
        = (pyLower "on" == "on")
    ∧ (execute_command (initState true false) "light" "on" "HTTP").actuator_events
        = (initState true false).actuator_events :=
  failed_event_write_state_kept (initState true false) "on" "HTTP" rfl

/-! ## Claim C4 -/

/-- Claim C4, counterexample: with temperature absent but a qualifying
humidity of 80 (> 70) and a light level of 100 (< 300), the evaluation
raises (`None > 28.0` is a `TypeError`) before any check runs: the state
is unchanged — no light transition, no humidity alert — and the HTTP
handler turns the exception into a 500 response. -/
theorem absent_temperature_raises :
    apply_auto_control (initState true true) none (some 80) (some 100)
      = (initState true true, Except.error ())
    ∧ (receive_sensor_data (initState false true) none (some 80) (some 100) 0).2 = 500 :=
  ⟨rfl, rfl⟩

/-- Claim C4 as amended: a threshold comparison against an absent value
raises a `TypeError` instead of being skipped — an absent temperature
aborts the whole evaluation untouched, an absent light level aborts
after the fan check, an absent humidity aborts after the light check,
and the `/sensor` handler reports HTTP 500. -/
theorem absent_reading_raises (st : BackendState) (h l : Option ℚ)
    (tv lv now : ℚ) :
    apply_auto_control st none h l = (st, Except.error ())
    ∧ (apply_auto_control st (some tv) h none).2 = Except.error ()
    ∧ (apply_auto_control st (some tv) none (some lv)).2 = Except.error ()
    ∧ (receive_sensor_data st none h l now).2 = 500 :=
  ⟨rfl, rfl, rfl, rfl⟩

/-! ## Claim C5 -/

/-- Claim C5: humidity alerts are never deduplicated — over any sequence
of complete readings whose humidities all exceed 70, every evaluation
appends exactly one `humidity_high` alert, independent of actuator
state and of previous readings: N qualifying readings yield N alerts. -/
theorem humidity_alert_every_qualifying_reading (st : BackendState)
    (rs : List (ℚ × ℚ × ℚ)) (hdb : st.db_ok = true)
    (hq : ∀ r ∈ rs, r.2.1 > humidity_high) :
    countAlerts (runReadings st rs).alerts "humidity_high"
      = countAlerts st.alerts "humidity_high" + rs.length := by
  induction rs generalizing st with
  | nil => simp [runReadings]
  | cons r rs ih =>
    have hdb2 : ((apply_auto_control st (some r.1) (some r.2.1) (some r.2.2)).1).db_ok
        = true := by
      rw [auto_db_ok]; exact hdb
    have hrec := ih ((apply_auto_control st (some r.1) (some r.2.1) (some r.2.2)).1)
      hdb2 (fun x hx => hq x (by simp [hx]))
    have hstep := auto_humidity_step st r.1 r.2.1 r.2.2 hdb (hq r (by simp))
    simp only [runReadings, List.foldl_cons] at hrec ⊢
    rw [hrec, hstep]
    simp only [List.length_cons]
    omega

/-- Witness for `humidity_alert_every_qualifying_reading`: two
consecutive qualifying readings yield two alerts. -/
theorem humidity_alert_every_qualifying_reading_witness :
    countAlerts (runReadings (initState false true)
        [(20, 80, 400), (40, 95, 50)]).alerts "humidity_high"
      = countAlerts (initState false true).alerts "humidity_high"
          + [((20:ℚ), (80:ℚ), (400:ℚ)), (40, 95, 50)].length :=
  humidity_alert_every_qualifying_reading (initState false true)
    [(20, 80, 400), (40, 95, 50)] rfl (by decide)

/-! ## Claim C6 -/

/-- Claim C6: the `temperature_critical` alert is edge-triggered — one
evaluation appends it exactly when the fan was OFF and the temperature
exceeds 35 (the OFF→ON transition), and with the fan already ON a
reading above 35 keeps the fan ON, produces no fan command and no new
alert. -/
theorem temperature_critical_edge_triggered (st : BackendState) (tv hv lv : ℚ)
    (hdb : st.db_ok = true) :
    countAlerts ((apply_auto_control st (some tv) (some hv) (some lv)).1.alerts)
        "temperature_critical"
      = countAlerts st.alerts "temperature_critical"
        + (if st.fan = false ∧ tv > temperature_critical then 1 else 0)
    ∧ (st.fan = true → tv > temperature_critical →
        (apply_auto_control st (some tv) (some hv) (some lv)).1.fan = true
        ∧ ∀ cmds,
            (apply_auto_control st (some tv) (some hv) (some lv)).2 = Except.ok cmds →
              cmds.fan = none) := by
  have h12 : temperature_high < temperature_critical := by
    norm_num [temperature_high, temperature_critical]
  simp only [apply_auto_control]
  by_cases h1 : tv > temperature_high <;> by_cases hf : st.fan = true <;>
    by_cases h2 : tv > temperature_critical <;>
    by_cases h3 : lv < light_threshold <;> by_cases hl : st.light = true <;>
    by_cases h4 : hv > humidity_high <;>
    first
      | exact absurd (h12.trans h2) h1
      | simp [h1, hf, h2, h3, hl, h4, hdb, countAlerts]

/-- Witness for `temperature_critical_edge_triggered`: an OFF→ON
transition at temperature 40 records the alert. -/
theorem temperature_critical_edge_triggered_witness :
    countAlerts ((apply_auto_control (initState false true)
          (some 40) (some 50) (some 400)).1.alerts) "temperature_critical"
      = countAlerts (initState false true).alerts "temperature_critical"
        + (if (initState false true).fan = false ∧ (40:ℚ) > temperature_critical
           then 1 else 0)
    ∧ ((initState false true).fan = true → (40:ℚ) > temperature_critical →
        (apply_auto_control (initState false true)
            (some 40) (some 50) (some 400)).1.fan = true
        ∧ ∀ cmds,
            (apply_auto_control (initState false true)
                (some 40) (some 50) (some 400)).2 = Except.ok cmds →
              cmds.fan = none) :=
  temperature_critical_edge_triggered (initState false true) 40 50 400 rfl

/-! ## Claim C7 -/

/-- Claim C7, counterexample: `last_thingspeak` initializes to 0, so the
call at `t = 0` sees zero elapsed time and does not fire — over the call
times 0, 5, 19, 20 only the call at `t = 20` triggers a ThingSpeak
publish, not the claimed two fires at `t = 0` and `t = 20`. -/
theorem thingspeak_trace_only_t20_fires :
    (runUpdates (initState false true) (some 25) (some 50) (some 100)
      [0, 5, 19, 20]).thingspeak_calls = [20] := by
  norm_num [runUpdates, update_sensor_data, save_sensor_reading,
    publish_mqtt, publish_to_thingspeak, initState]

/-- Claim C7 as amended: the limiter fires iff at least 20 seconds
elapsed since the recorded last-fire time, recording `now` on success
and leaving the limiter state unchanged otherwise; since the last-fire
time initializes to 0, a first call at `t = 0` does not fire, so over
calls at t = 0, 5, 19, 20 only t = 20 fires. -/
theorem thingspeak_rate_limit_fire_iff (st : BackendState)
    (t h l : Option ℚ) (now : ℚ) :
    (now - st.last_thingspeak ≥ 20 →
      (update_sensor_data st t h l now).thingspeak_calls
          = st.thingspeak_calls ++ [now]
      ∧ (update_sensor_data st t h l now).last_thingspeak = now)
    ∧ (¬ (now - st.last_thingspeak ≥ 20) →
      (update_sensor_data st t h l now).thingspeak_calls = st.thingspeak_calls
      ∧ (update_sensor_data st t h l now).last_thingspeak
          = st.last_thingspeak) := by
  constructor <;> intro hc <;>
    simp only [update_sensor_data, publish_to_thingspeak, save_sensor_reading_eq,
      publish_mqtt_eq] <;>
    split_ifs <;> simp_all

/-- Witness for `thingspeak_rate_limit_fire_iff`: a call at `t = 25`
from the initial state fires and records 25. -/
theorem thingspeak_rate_limit_fire_iff_witness :
    (update_sensor_data (initState false true) (some 25) (some 50) (some 100)
        25).thingspeak_calls
      = (initState false true).thingspeak_calls ++ [25]
    ∧ (update_sensor_data (initState false true) (some 25) (some 50) (some 100)
        25).last_thingspeak = 25 :=
  (thingspeak_rate_limit_fire_iff (initState false true)
      (some 25) (some 50) (some 100) 25).1 (by norm_num [initState])

/-! ## Claim C8 -/

/-- Claim C8: remote MQTT command handling — the actuator comes from a
topic substring match (`"fan"` first, else `"light"`, else the message
is silently ignored), and the action is the parsed body's `"action"`
field, else its `"state"` field, else (on JSON parse failure) the whole
raw payload string. -/
theorem mqtt_command_fallback_chain
    (parse : String → Option (List (String × String)))
    (st : BackendState) (topic payload : String) :
    (substrIn "fan" topic = false → substrIn "light" topic = false →
      on_mqtt_message parse st topic payload = st)
    ∧ (substrIn "fan" topic = true → parse payload = none →
      on_mqtt_message parse st topic payload
        = execute_command st "fan" payload "MQTT")
    ∧ (∀ fields, substrIn "fan" topic = true → parse payload = some fields →
      on_mqtt_message parse st topic payload
        = execute_command st "fan"
            (dictGet fields "action" (dictGet fields "state" "")) "MQTT")
    ∧ (substrIn "fan" topic = false → substrIn "light" topic = true →
        parse payload = none →
      on_mqtt_message parse st topic payload
        = execute_command st "light" payload "MQTT")
    ∧ (∀ fields, substrIn "fan" topic = false → substrIn "light" topic = true →
        parse payload = some fields →
      on_mqtt_message parse st topic payload
        = execute_command st "light"
            (dictGet fields "action" (dictGet fields "state" "")) "MQTT") := by
  refine ⟨?_, ?_, ?_, ?_, ?_⟩
  · intro hf hl; simp [on_mqtt_message, hf, hl]
  · intro hf hp; simp [on_mqtt_message, hf, hp, dictGet]
  · intro fields hf hp; simp [on_mqtt_message, hf, hp]
  · intro hf hl hp; simp [on_mqtt_message, hf, hl, hp, dictGet]
  · intro fields hf hl hp; simp [on_mqtt_message, hf, hl, hp]

/-- Witness for `mqtt_command_fallback_chain`: a non-JSON payload `"on"`
on a fan topic executes `("fan", "on")`. -/
theorem mqtt_command_fallback_chain_witness :
    on_mqtt_message (fun _ => none) (initState true true)
        "smarthome/commands/fan" "on"
      = execute_command (initState true true) "fan" "on" "MQTT" :=
  (mqtt_command_fallback_chain (fun _ => none) (initState true true)
      "smarthome/commands/fan" "on").2.1 (by decide) rfl

/-! ## Claim C9 -/

/-- Claim C9: `execute_command` lowercases the action and sets the
actuator state to ON exactly when the lowercased action equals `"on"`;
`"OFF"`, `"toggle"` and `"on "` (trailing space) all resolve to OFF,
and `"ON"` resolves to ON, with no exception. -/
theorem action_normalization_lowercase_on (st : BackendState)
    (action source : String) :
    (execute_command st "fan" action source).fan = (pyLower action == "on")
    ∧ (execute_command st "light" action source).light = (pyLower action == "on")
    ∧ (execute_command st "light" "OFF" source).light = false
    ∧ (execute_command st "light" "toggle" source).light = false
    ∧ (execute_command st "light" "on " source).light = false
    ∧ (execute_command st "fan" "ON" source).fan = true := by
  refine ⟨?_, ?_, ?_, ?_, ?_, ?_⟩ <;> simp [execute_command, pyLower]

/-! ## Claim C10 -/

/-- Claim C10: for any actuator other than `"fan"` and `"light"`,
`execute_command` is a complete silent no-op — the entire backend state
(actuator states, sensor data, event and alert tables, published
messages) is returned unchanged. -/
theorem unknown_actuator_noop (st : BackendState)
    (actuator action source : String)
    (h1 : actuator ≠ "fan") (h2 : actuator ≠ "light") :
    execute_command st actuator action source = st := by
  have e1 : (actuator == "fan") = false := by simpa using h1
  have e2 : (actuator == "light") = false := by simpa using h2
  simp [execute_command, e1, e2]

/-- Witness for `unknown_actuator_noop` at actuator `"buzzer"`. -/
theorem unknown_actuator_noop_witness :
    execute_command (initState true true) "buzzer" "on" "HTTP"
      = initState true true :=
  unknown_actuator_noop (initState true true) "buzzer" "on" "HTTP"
    (by decide) (by decide)

end SmartHome
